import Mathlib

/-!
Verification of the chart-snapshot capture service of the
TradingviewSnapshotBot repository.

The development shallowly embeds the relevant functions of the repository:

* `src/unnamed/part_000` ("TradingView Snapshot Microservice"): the
  concurrency semaphore (`acquireCaptureSlot` / `releaseCaptureSlot`), the
  browser manager (`launchBrowserIfNeeded`), the symbol resolver
  (`resolveSymbol`, embedded here as `resolveSymbolJs`), the capture
  function (`captureTradingViewChart`), the fallback orchestrator
  (`captureWithFallback`) and the HTTP handler (`handleSnapshotRequest`).
* `src/unnamed/part_002` ("IQ Option + TradingView Snapshot Microservice"):
  the pair table (`PAIR_MAP`), its resolver (`resolveSymbol`, embedded as
  `resolveSymbolIq`), the capture function (`screenshotTv`), the auto
  fallback chain (`attemptAutoScreenshot`, embedded as `tvFallbackChain`),
  the LRU cache (`cacheGet` / `cachePut`) and the `BrowserManager` class.
* `src/server.js` (a Python Telegram bot): `resolve_symbol`, the
  `PAIR_XREF` table and the HTTP snapshot client `_try_url`.
* `src/index.js`: `captureTradingView`.

Browser effects (navigation, screenshots) are modelled by passing their
outcomes in as explicit `Except` / `Option` values; byte buffers are lists
of byte values.
-/

/-- A byte buffer (Node `Buffer` / Python `bytes`), as a list of byte values. -/
abbrev Bytes := List Nat

/-!
### Executable string helpers

Core `String` functions such as `String.toUpper`, `String.trim` and
`String.splitOn` are defined by position-based recursion that does not
reduce inside the kernel, so the embedding uses character-list versions
(`String.toList` / `String.mk`) with identical behaviour on the inputs at
hand.
-/

/-- `.toUpperCase()` / `.upper()`. -/
def strUpper (s : String) : String :=
  String.mk (s.toList.map Char.toUpper)

/-- `.toLowerCase()` / `.lower()`. -/
def strLower (s : String) : String :=
  String.mk (s.toList.map Char.toLower)

/-- `.trim()` / `.strip()`: drop leading and trailing whitespace. -/
def strTrim (s : String) : String :=
  String.mk (((s.toList.dropWhile Char.isWhitespace).reverse.dropWhile
    Char.isWhitespace).reverse)

/-- `leadsChars pre l`: `pre` is an initial run of `l`. -/
def leadsChars : List Char → List Char → Bool
  | [], _ => true
  | _ :: _, [] => false
  | p :: ps, x :: xs => p == x && leadsChars ps xs

/-- Substring containment on character lists (Python `sub in s`). -/
def hasSubChars (sub : List Char) : List Char → Bool
  | [] => leadsChars sub []
  | x :: xs => leadsChars sub (x :: xs) || hasSubChars sub xs

/-- Python `sub in s` / JS `s.includes(sub)`. -/
def strContains (s sub : String) : Bool :=
  hasSubChars sub.toList s.toList

/-- JS `s.endsWith(suf)` (also used for `/suf$/` regex tests). -/
def strEndsWith (s suf : String) : Bool :=
  leadsChars suf.toList.reverse s.toList.reverse

/-- JS `s.startsWith(pre)` / Python `s.startswith(pre)`. -/
def strStartsWith (s pre : String) : Bool :=
  leadsChars pre.toList s.toList

/-- The characters strictly before the first occurrence of `sep`, and those
after it, when `sep` occurs. -/
def splitFirstChar (sep : Char) : List Char → Option (List Char × List Char)
  | [] => none
  | c :: cs =>
    if c == sep then some ([], cs)
    else
      match splitFirstChar sep cs with
      | some (a, b) => some (c :: a, b)
      | none => none

/-- The characters strictly before the first occurrence of `sep`. -/
def upToChar (sep : Char) : List Char → List Char
  | [] => []
  | c :: cs => if c == sep then [] else c :: upToChar sep cs

/-- Python `s.split(sep, 1)`: head piece and everything after the first
separator (which may itself contain further separators). -/
def splitOncePy (s : String) (sep : Char) : String × String :=
  match splitFirstChar sep s.toList with
  | some (a, b) => (String.mk a, String.mk b)
  | none => (s, "")

/-- JS `s.split(sep, 2)`: the first two pieces; anything after a second
separator is discarded. -/
def splitLimit2 (s : String) (sep : Char) : String × String :=
  match splitFirstChar sep s.toList with
  | some (a, b) => (String.mk a, String.mk (upToChar sep b))
  | none => (s, "")

/-- `startsWithBytes pre l` is true when `pre` is an initial run of `l`
(Python `bytes.startswith` / checking magic bytes). -/
def startsWithBytes : Bytes → Bytes → Bool
  | [], _ => true
  | _ :: _, [] => false
  | p :: ps, x :: xs => p == x && startsWithBytes ps xs

/-- Byte encoding of an ASCII text body (each char as its code point). -/
def textBytes (s : String) : Bytes :=
  s.toList.map (fun c => c.toNat)

/-- The PNG magic bytes `b"\x89PNG\r\n\x1a\n"` (src/server.js `PNG_MAGIC`). -/
def PNG_MAGIC : Bytes := [0x89, 0x50, 0x4E, 0x47, 0x0D, 0x0A, 0x1A, 0x0A]

/-!
## Fallback orchestrator (`captureWithFallback`, src/unnamed/part_000 466-514)

The JS builds `allEx = [exchange, ...altExchanges]`, deduplicates by
uppercased name preserving first occurrence, then tries each exchange in
order, returning the first successful capture together with the exchange
used.  The per-candidate capture is modelled by an oracle
`engine : String → Option Bytes` (`none` = the attempt threw).
-/

/-- Case-insensitive dedup keeping first occurrence, pushing the uppercased
form, as in the `seen` / `dedup` loop of `captureWithFallback`. -/
def dedupUpperAux : List String → List String → List String
  | [], _ => []
  | ex :: rest, seen =>
    let exUp := strUpper ex
    if seen.contains exUp then dedupUpperAux rest seen
    else exUp :: dedupUpperAux rest (exUp :: seen)

/-- The deduplicated candidate list of `captureWithFallback`. -/
def dedupUpper (exs : List String) : List String :=
  dedupUpperAux exs []

/-- The `for (const ex of dedup)` loop of `captureWithFallback`: returns the
`tried` list (attempt order) and the first success with the exchange used. -/
def runFallback (engine : String → Option Bytes) :
    List String → List String × Option (Bytes × String)
  | [] => ([], none)
  | ex :: rest =>
    match engine ex with
    | some buf => ([ex], some (buf, ex))
    | none =>
      let r := runFallback engine rest
      (ex :: r.1, r.2)

/-- `captureWithFallback` (src/unnamed/part_000 466-514): dedup the
primary exchange followed by the alternates, then try them in order. -/
def captureWithFallback (engine : String → Option Bytes)
    (exchange : String) (altExchanges : List String) :
    List String × Option (Bytes × String) :=
  runFallback engine (dedupUpper (exchange :: altExchanges))

/-- A concrete capture oracle used by witnesses: only "OANDA" succeeds. -/
def engineW : String → Option Bytes :=
  fun ex => if ex == "OANDA" then some [1] else none

/-!
## Symbol resolvers

Three variants are embedded: `resolve_symbol` from src/server.js (Python,
lines 426-442, with the `PAIR_XREF` table), `resolveSymbol` from
src/unnamed/part_000 (lines 334-369, embedded as `resolveSymbolJs`) and
`resolveSymbol` from src/unnamed/part_002 (lines 191-241, embedded as
`resolveSymbolIq`, with the `PAIR_MAP` table).  Environment-dependent
configuration is taken at its documented defaults.
-/

/-- `DEFAULT_EXCHANGE` (src/server.js 132, default "FX"). -/
def DEFAULT_EXCHANGE : String := "FX"

/-- src/server.js 217. -/
def KNOWN_EXCHANGES_FX : List String := ["FX", "FX_IDC", "OANDA", "FOREXCOM", "IDC"]

/-- src/server.js 218. -/
def KNOWN_EXCHANGES_OTC : List String := ["QUOTEX", "IQOPTION", "CURRENCY"]

/-- src/server.js 219. -/
def KNOWN_EXCHANGES_IDX : List String := ["INDEX", "FOREXCOM", "OANDA", "IDC"]

/-- src/server.js 220. -/
def KNOWN_EXCHANGES_CRY : List String := ["BINANCE", "COINBASE", "KRAKEN", "BITSTAMP", "CRYPTO"]

/-- `FX_PAIRS` (identical in src/server.js 178-183 and src/unnamed/part_002 111-116). -/
def FX_PAIRS : List String := [
  "EUR/USD", "GBP/USD", "USD/JPY", "USD/CHF", "AUD/USD",
  "NZD/USD", "USD/CAD", "EUR/GBP", "EUR/JPY", "GBP/JPY",
  "AUD/JPY", "NZD/JPY", "EUR/AUD", "GBP/AUD", "EUR/CAD",
  "USD/MXN", "USD/TRY", "USD/ZAR", "AUD/CHF", "EUR/CHF"]

/-- `OTC_PAIRS` (identical in src/server.js 185-190 and src/unnamed/part_002 118-123). -/
def OTC_PAIRS : List String := [
  "EUR/USD-OTC", "GBP/USD-OTC", "USD/JPY-OTC", "USD/CHF-OTC", "AUD/USD-OTC",
  "NZD/USD-OTC", "USD/CAD-OTC", "EUR/GBP-OTC", "EUR/JPY-OTC", "GBP/JPY-OTC",
  "AUD/CHF-OTC", "EUR/CHF-OTC", "KES/USD-OTC", "MAD/USD-OTC",
  "USD/BDT-OTC", "USD/MXN-OTC", "USD/MYR-OTC", "USD/PKR-OTC"]

/-- `_underlying_otc` (src/server.js 238-245); the same table is
`UNDERLYING_OTC_MAP` in src/unnamed/part_002 128-135. -/
def _underlying_otc : List (String × String) := [
  ("EUR/USD-OTC", "EURUSD"), ("GBP/USD-OTC", "GBPUSD"), ("USD/JPY-OTC", "USDJPY"),
  ("USD/CHF-OTC", "USDCHF"), ("AUD/USD-OTC", "AUDUSD"), ("NZD/USD-OTC", "NZDUSD"),
  ("USD/CAD-OTC", "USDCAD"), ("EUR/GBP-OTC", "EURGBP"), ("EUR/JPY-OTC", "EURJPY"),
  ("GBP/JPY-OTC", "GBPJPY"), ("AUD/CHF-OTC", "AUDCHF"), ("EUR/CHF-OTC", "EURCHF"),
  ("KES/USD-OTC", "USDKES"), ("MAD/USD-OTC", "USDMAD"), ("USD/BDT-OTC", "USDBDT"),
  ("USD/MXN-OTC", "USDMXN"), ("USD/MYR-OTC", "USDMYR"), ("USD/PKR-OTC", "USDPKR")]

/-- `_idx_map` (src/server.js 250-261). -/
def _idx_map : List (String × String) := [
  ("US30", "DXY"), ("SPX500", "SPX"), ("NAS100", "NDX"), ("DE40", "DE40"),
  ("UK100", "UKX"), ("JP225", "JP225"), ("FR40", "FR40"), ("ES35", "ES35"),
  ("HK50", "HK50"), ("AU200", "AU200")]

/-- `_crypto_map` (src/server.js 266-269). -/
def _crypto_map : List (String × String) := [
  ("BTC/USD", "BTCUSD"), ("ETH/USD", "ETHUSD"), ("SOL/USD", "SOLUSD"),
  ("XRP/USD", "XRPUSD"), ("LTC/USD", "LTCUSD"), ("ADA/USD", "ADAUSD"),
  ("DOGE/USD", "DOGEUSD"), ("BNB/USD", "BNBUSD"), ("DOT/USD", "DOTUSD"),
  ("LINK/USD", "LINKUSD")]

/-- `_canon_key` (src/server.js 223-224): strip, uppercase, then remove
spaces, slashes and dashes. -/
def canonKeyPy (s : String) : String :=
  String.mk (((strTrim s).toList.map Char.toUpper).filter
    (fun c => !(c == ' ' || c == '/' || c == '-')))

/-- `p.replace("/", "")`. -/
def slashless (s : String) : String :=
  String.mk (s.toList.filter (fun c => c != '/'))

/-- `PAIR_XREF` (src/server.js 227-271): canonical key ↦
`(primary exchange, ticker, alt exchange list)`, built from the four
asset tables exactly as the Python loops do. -/
def PAIR_XREF : List (String × String × String × List String) :=
  (FX_PAIRS.map (fun p =>
    (canonKeyPy p, DEFAULT_EXCHANGE, slashless p, KNOWN_EXCHANGES_FX))) ++
  (_underlying_otc.map (fun e =>
    (canonKeyPy e.1, "QUOTEX", e.2, KNOWN_EXCHANGES_OTC ++ KNOWN_EXCHANGES_FX))) ++
  (_idx_map.map (fun e =>
    (canonKeyPy e.1, "INDEX", e.2, KNOWN_EXCHANGES_IDX))) ++
  (_crypto_map.map (fun e =>
    (canonKeyPy e.1, "BINANCE", e.2, KNOWN_EXCHANGES_CRY)))

/-- Dictionary lookup in `PAIR_XREF` (keys are pairwise distinct, so the
first match is the dictionary entry). -/
def lookupXref (key : String) : Option (String × String × List String) :=
  (PAIR_XREF.find? (fun e => e.1 == key)).map (fun e => e.2)

/-- Result of a resolver returning
`(primary exchange, ticker, OTC flag, alternate exchange list)` —
the shape shared by src/server.js `resolve_symbol` and
src/unnamed/part_000 `resolveSymbol`. -/
structure Resolved where
  exchange : String
  ticker : String
  isOtc : Bool
  alts : List String
  deriving Repr, DecidableEq

/-- `re.sub(r"[^A-Z0-9]", "", s)` — also the scrub regex of part_002. -/
def stripNonAlnumUpper (s : String) : String :=
  String.mk (s.toList.filter (fun c => c.isUpper || c.isDigit))

/-- `resolve_symbol` (src/server.js 426-442). -/
def resolve_symbol (raw : String) : Resolved :=
  if raw = "" then ⟨DEFAULT_EXCHANGE, "EURUSD", false, KNOWN_EXCHANGES_FX⟩
  else
    let s := strUpper (strTrim raw)
    let is_otc := strContains s "-OTC"
    match lookupXref (canonKeyPy s) with
    | some pta => ⟨pta.1, pta.2.1, is_otc, pta.2.2⟩
    | none =>
      if strContains s ":" then
        let p := splitOncePy s ':'
        ⟨p.1, p.2, is_otc, []⟩
      else
        ⟨DEFAULT_EXCHANGE, stripNonAlnumUpper s, is_otc,
          if is_otc then KNOWN_EXCHANGES_OTC else KNOWN_EXCHANGES_FX⟩

/-- The ordered candidate list a resolver result induces: the primary
(source, ticker) pair followed by the alternate sources. -/
def candidatesOf (r : Resolved) : List (String × String) :=
  (r.exchange, r.ticker) :: r.alts.map (fun e => (e, r.ticker))

/-- `TV_DEFAULT_EX` (src/unnamed/part_000 88, default "FX"). -/
def TV_DEFAULT_EX : String := "FX"

/-- `EXCHANGE_FALLBACKS` (src/unnamed/part_000 285, env default). -/
def EXCHANGE_FALLBACKS : List String := ["FX_IDC", "OANDA", "FOREXCOM", "FXCM", "IDC"]

/-- `stripPairCore` (src/unnamed/part_000 314-316): remove
non-alphanumerics, then a trailing `OTC` (case-insensitive). -/
def stripPairCore (raw : String) : String :=
  let t := String.mk (raw.toList.filter (fun c => c.isAlpha || c.isDigit))
  if strEndsWith (strUpper t) "OTC" then
    String.mk (t.toList.take (t.toList.length - 3))
  else t

/-- `isOtcPair` (src/unnamed/part_000 321-323): the case-insensitive
regex test for a trailing "-OTC". -/
def isOtcPair (raw : String) : Bool :=
  strEndsWith (strUpper raw) "-OTC"

/-- The `if (!altList.includes(x)) altList.push(x)` idiom of part_000. -/
def pushIfAbsent (l : List String) (x : String) : List String :=
  if l.contains x then l else l ++ [x]

/-- `resolveSymbol` (src/unnamed/part_000 334-369). -/
def resolveSymbolJs (raw : String) : Resolved :=
  if raw = "" then ⟨TV_DEFAULT_EX, "EURUSD", false, EXCHANGE_FALLBACKS⟩
  else
    let s := strTrim raw
    let isOtc := isOtcPair s
    let extk : String × String :=
      if strContains s ":" then
        let p := splitLimit2 s ':'
        (strUpper (strTrim p.1), stripPairCore (strUpper (strTrim p.2)))
      else
        ("", stripPairCore (strUpper s))
    let ex := if extk.1 = "" then TV_DEFAULT_EX else extk.1
    let altList := pushIfAbsent (pushIfAbsent EXCHANGE_FALLBACKS "QUOTEX") "CURRENCY"
    ⟨ex, extk.2, isOtc, altList⟩

/-- `canonKey` (src/unnamed/part_002 138-140): trim, uppercase, remove
whitespace and slashes; dashes are kept. -/
def canonKeyJs (s : String) : String :=
  String.mk (((strTrim s).toList.map Char.toUpper).filter
    (fun c => !(c.isWhitespace || c == '/')))

/-- `UNDERLYING_OTC_MAP` (src/unnamed/part_002 128-135); identical content
to src/server.js `_underlying_otc`. -/
def UNDERLYING_OTC_MAP : List (String × String) := _underlying_otc

/-- `TV_EXCH_FALLBACKS` (src/unnamed/part_002 155-157). -/
def TV_EXCH_FALLBACKS : List String :=
  ["FX", "CURRENCY", "QUOTEX", "FX_IDC", "OANDA", "FOREXCOM", "FXCM", "IDC"]

/-- JS `.replace('-OTC','')` as used building `PAIR_MAP`: for the labels in
`OTC_PAIRS` the first occurrence of "-OTC" is the suffix. -/
def dropDashOtc (s : String) : String :=
  if strEndsWith (strUpper s) "-OTC" then
    String.mk (s.toList.take (s.toList.length - 4))
  else s

/-- `PAIR_MAP` (src/unnamed/part_002 143-150): canonical key ↦
`(label, iqTicker, isOTC)`. -/
def PAIR_MAP : List (String × String × String × Bool) :=
  (FX_PAIRS.map (fun p => (canonKeyJs p, p, slashless p, false))) ++
  (OTC_PAIRS.map (fun p =>
    let tk := match UNDERLYING_OTC_MAP.lookup p with
      | some t => t
      | none => dropDashOtc (slashless p)
    (canonKeyJs p, p, tk, true)))

/-- Lookup in `PAIR_MAP` (keys pairwise distinct). -/
def lookupPairMap (key : String) : Option (String × String × Bool) :=
  (PAIR_MAP.find? (fun e => e.1 == key)).map (fun e => e.2)

/-- Result of part_002's `resolveSymbol` (191-241). -/
structure ResolvedIq where
  label : String
  iqTicker : String
  tvTicker : String
  isOTC : Bool
  tvExchList : List String
  deriving Repr, DecidableEq

/-- `resolveSymbol` (src/unnamed/part_002 191-241). -/
def resolveSymbolIq (raw : String) : ResolvedIq :=
  let raw0 := if raw = "" then "EUR/USD" else raw
  let s := strTrim raw0
  if strContains s ":" then
    let p := splitLimit2 s ':'
    let ex := strUpper p.1
    let tk0 := strUpper p.2
    let isOTC := strEndsWith tk0 "-OTC"
    let tk := if isOTC then String.mk (tk0.toList.take (tk0.toList.length - 4)) else tk0
    ⟨s, tk, tk, isOTC, [ex]⟩
  else
    match lookupPairMap (canonKeyJs s) with
    | some lti => ⟨lti.1, lti.2.1, lti.2.1, lti.2.2, TV_EXCH_FALLBACKS⟩
    | none =>
      let scrub := stripNonAlnumUpper (strUpper s)
      ⟨s, scrub, scrub, strEndsWith (strUpper s) "-OTC", TV_EXCH_FALLBACKS⟩

/-!
## Capture engine and HTTP layer

Browser effects are passed in as oracles: `nav` is the outcome of
`page.goto` (an `Except.error` is a navigation error/timeout) and `shot`
the outcome of `page.screenshot`.
-/

/-- Result shape of part_002's screenshot functions:
`{ok, buf, error}` (the `url` field is omitted). -/
structure ShotResult where
  ok : Bool
  buf : Option Bytes
  error : Option String
  deriving Repr, DecidableEq

/-- `screenshotTv` (src/unnamed/part_002 384-400): the whole
navigate/wait/screenshot sequence runs in one try/catch; any thrown error
becomes `{ok:false, error:String(err)}` and is not re-raised; on success
the raw screenshot bytes are returned with `ok:true`.  No size check is
performed on the bytes (`screenshotIq`, 362-379, is identical). -/
def screenshotTv (nav : Except String Unit) (shot : Except String Bytes) :
    ShotResult :=
  match nav with
  | Except.error e => ⟨false, none, some e⟩
  | Except.ok _ =>
    match shot with
    | Except.error e => ⟨false, none, some e⟩
    | Except.ok buf => ⟨true, some buf, none⟩

/-- `captureTradingViewChart` (src/unnamed/part_000 416-461): `page.goto`
is wrapped in its own try/catch whose handler only logs, so a navigation
error does not fail the attempt; the screenshot is then taken regardless
and its bytes returned (a screenshot error would propagate).  No size
check is applied to the bytes. -/
def captureTradingViewChart (nav : Except String Unit)
    (shot : Except String Bytes) : Except String Bytes :=
  match nav with
  | Except.error _ => shot
  | Except.ok _ => shot

/-- `captureTradingView` (src/index.js 94-102): `page.goto` is not wrapped
in any try/catch, so a navigation error propagates to the caller. -/
def captureTradingView (nav : Except String Unit)
    (shot : Except String Bytes) : Except String Bytes :=
  match nav with
  | Except.error e => Except.error e
  | Except.ok _ => shot

/-- The TradingView leg of `attemptAutoScreenshot` (src/unnamed/part_002
493-504): try each exchange with `screenshotTv` in order, stopping at the
first `ok`; when every exchange fails, report an all-sources-failed
result. -/
def tvFallbackChain (engine : String → ShotResult) (tk : String) :
    List String → ShotResult
  | [] => ⟨false, none, some ("All sources failed for " ++ tk)⟩
  | ex :: rest =>
    let r := engine ex
    if r.ok then r else tvFallbackChain engine tk rest

/-- An HTTP response: status, content type, body bytes. -/
structure HttpResponse where
  status : Nat
  contentType : String
  body : Bytes
  deriving Repr, DecidableEq

/-- `handleSnapshotRequest` (src/unnamed/part_000 605-618): on success the
PNG is sent as image/png; on failure (every exchange exhausted,
`captureWithFallback` threw) the error message string is sent with status
500 — express `res.send(string)` defaults the content type to text/html. -/
def handleSnapshotRequest (capture : Except String (Bytes × String)) :
    HttpResponse :=
  match capture with
  | Except.ok r => ⟨200, "image/png", r.1⟩
  | Except.error e => ⟨500, "text/html", textBytes e⟩

/-- The failure branch of part_002's `/run` handler (546-549):
`res.status(404).type('text/plain').send('Not Found\n' + msg)`. -/
def runEndpointFailure (msg : String) : HttpResponse :=
  ⟨404, "text/plain", textBytes ("Not Found\n" ++ msg)⟩

/-- An HTTP response as seen by the Python snapshot client. -/
structure HttpResp where
  status : Nat
  contentType : String
  content : Bytes
  deriving Repr, DecidableEq

/-- Result of `_try_url`: success flag, PNG bytes when successful, and the
failing status (the real code formats it into the error text
"HTTP status: snippet"); `errStatus = none` with `success = false` models
the request-exception branch. -/
structure TryResult where
  success : Bool
  png : Option Bytes
  errStatus : Option Nat
  deriving Repr, DecidableEq

/-- `_try_url` (src/server.js 457-471): accept a 200 status with an image
content type, otherwise accept any body starting with the PNG magic bytes
regardless of status; `resp = none` models a raised request exception. -/
def _try_url (resp : Option HttpResp) : TryResult :=
  match resp with
  | none => ⟨false, none, none⟩
  | some r =>
    if r.status == 200 && strStartsWith (strLower r.contentType) "image" then
      ⟨true, some r.content, none⟩
    else if startsWithBytes PNG_MAGIC r.content then
      ⟨true, some r.content, none⟩
    else ⟨false, none, some r.status⟩

/-!
## Concurrency semaphore (src/unnamed/part_000 130-161)
-/

/-- State of the capture-slot semaphore: `activeCaptures` and the FIFO
`captureQueue` of pending acquires (by request id).  `active` is an `Int`,
mirroring the unguarded JS decrement. -/
structure SlotState where
  active : Int
  queue : List Nat
  deriving Repr, DecidableEq

/-- `acquireCaptureSlot` (part_000 137-147): take a slot immediately when
under the cap, otherwise append to the FIFO queue.  The second component
tells whether the slot was granted at once; a queued acquire leaves its
promise pending — it never fails. -/
def acquireCaptureSlot (maxConc : Int) (s : SlotState) (rid : Nat) :
    SlotState × Bool :=
  if s.active < maxConc then ({ s with active := s.active + 1 }, true)
  else ({ s with queue := s.queue ++ [rid] }, false)

/-- `releaseCaptureSlot` (part_000 152-161): decrement, then hand the slot
to the front of the queue when someone is waiting and the decremented
count is under the cap; the second component is the request granted, if
any. -/
def releaseCaptureSlot (maxConc : Int) (s : SlotState) :
    SlotState × Option Nat :=
  match s.queue with
  | [] => (⟨s.active - 1, []⟩, none)
  | r :: rest =>
    if s.active - 1 < maxConc then (⟨s.active - 1 + 1, rest⟩, some r)
    else (⟨s.active - 1, r :: rest⟩, none)

/-- States reachable by proper use of the semaphore: every release is
performed by a current slot holder (`0 < active`), exactly what the
`acquire … try … finally release` pairing at the call sites guarantees. -/
inductive SlotReachable (maxConc : Int) : SlotState → Prop where
  | init : SlotReachable maxConc ⟨0, []⟩
  | acq : ∀ s rid, SlotReachable maxConc s →
      SlotReachable maxConc (acquireCaptureSlot maxConc s rid).1
  | rel : ∀ s, SlotReachable maxConc s → 0 < s.active →
      SlotReachable maxConc (releaseCaptureSlot maxConc s).1

/-!
## Browser session managers

Handles are modelled as `Nat` ids; `fresh` is the id a new launch would
produce.
-/

/-- Module state of part_000 (166-168): the browser handle and the ready
flag.  `browserLaunching` is transient and false between calls in a
sequential trace, so it is omitted. -/
structure BrA where
  browser : Option Nat
  browserReady : Bool
  deriving Repr, DecidableEq

/-- `launchBrowserIfNeeded` (src/unnamed/part_000 188-232): return the
handle only when present and ready; otherwise launch a fresh browser,
store it and mark it ready. -/
def launchBrowserIfNeeded (s : BrA) (fresh : Nat) : BrA × Nat :=
  match s.browser with
  | some b => if s.browserReady then (s, b) else (⟨some fresh, true⟩, fresh)
  | none => (⟨some fresh, true⟩, fresh)

/-- The `browser.on('disconnected', ...)` handler of part_000 (213-218):
clears both the handle and the ready flag. -/
def disconnectA (_ : BrA) : BrA := ⟨none, false⟩

/-- State of part_002's `BrowserManager` (307-355): the browser handle and
the memoized `launching` promise, modelled by the handle that promise
resolved to.  Nothing in the class ever resets `launching`. -/
structure BrB where
  browser : Option Nat
  launching : Option Nat
  deriving Repr, DecidableEq

/-- `_doLaunch` (part_002 314-335): return the memoized launching promise
when present; otherwise launch, store the browser and memoize the
promise. -/
def doLaunchB (s : BrB) (fresh : Nat) : BrB × Nat :=
  match s.launching with
  | some h => (s, h)
  | none => (⟨some fresh, some fresh⟩, fresh)

/-- `ensure` (part_002 336-339): return the browser when present, else go
through `_doLaunch`. -/
def ensureB (s : BrB) (fresh : Nat) : BrB × Nat :=
  match s.browser with
  | some b => (s, b)
  | none => doLaunchB s fresh

/-- part_002's `'disconnected'` handler (line 331): nulls `this.browser`
but leaves `this.launching` memoized. -/
def disconnectB (s : BrB) : BrB := { s with browser := none }

/-!
## In-memory cache (src/unnamed/part_002 263-279)
-/

/-- `CACHE_MAX` (part_002 263). -/
def CACHE_MAX : Nat := 50

/-- `CACHE_TTL_MS` (part_002 264): 10 seconds. -/
def CACHE_TTL_MS : Nat := 10000

/-- One cached entry: insertion timestamp (ms) and the PNG buffer. -/
structure CacheEntry where
  ts : Nat
  buf : Bytes
  deriving Repr, DecidableEq

/-- The JS `Map`, as an insertion-ordered association list with pairwise
distinct keys. -/
abbrev Cache := List (String × CacheEntry)

/-- `cacheGet` (part_002 266-271): a hit strictly older than the TTL is
deleted and reported as a miss; otherwise the cached buffer is served.
Returns the possibly-updated cache and the result. -/
def cacheGet (c : Cache) (now : Nat) (url : String) : Cache × Option Bytes :=
  match c.lookup url with
  | none => (c, none)
  | some v =>
    if CACHE_TTL_MS < now - v.ts then (c.filter (fun e => e.1 != url), none)
    else (c, some v.buf)

/-- JS `Map.set`: update in place when the key exists (keeping its
position), else append. -/
def mapSet (c : Cache) (url : String) (v : CacheEntry) : Cache :=
  if c.any (fun e => e.1 == url) then
    c.map (fun e => if e.1 == url then (url, v) else e)
  else c ++ [(url, v)]

/-- The key `cachePut` evicts: the code stable-sorts the entries by
timestamp and deletes the first, i.e. the earliest-inserted entry among
those with minimal timestamp — the fold below keeps the current best
unless a strictly smaller timestamp appears. -/
def oldestKey (c : Cache) : Option String :=
  match c with
  | [] => none
  | e :: _ =>
    some ((c.foldl (fun best cur => if cur.2.ts < best.2.ts then cur else best) e).1)

/-- `cachePut` (part_002 272-279): insert/overwrite, then when the map
exceeds `CACHE_MAX` entries evict the oldest. -/
def cachePut (c : Cache) (now : Nat) (url : String) (buf : Bytes) : Cache :=
  let c2 := mapSet c url ⟨now, buf⟩
  if CACHE_MAX < c2.length then
    match oldestKey c2 with
    | some k => c2.filter (fun e => e.1 != k)
    | none => c2
  else c2

/-- The cache short-circuit of part_002's `/run` (529-533): a hit is
served directly as image/png (with an `X-Cache: HIT` header). -/
def runCacheRespond (cached : Option Bytes) : Option HttpResponse :=
  cached.map (fun buf => ⟨200, "image/png", buf⟩)

/-!
## HTTP-client fallback orchestrator (`fetch_snapshot_png_any`,
src/server.js 484-539)

Per exchange the Python tries four endpoint URLs; the per-URL outcome is
modelled by an oracle `fetchUrl : String → Option Bytes`, `some png`
exactly when `_try_url` reports success with a truthy body
(`if ok and png`).
-/

/-- `BASE_URL` (src/server.js 131, env default). -/
def BASE_URL : String := "http://localhost:10000"

/-- The hard-coded broad-fallback exchanges appended after the resolver's
alternates (src/server.js 507). -/
def SNAPSHOT_GLOBAL_EXCHANGES : List String :=
  ["FX", "FX_IDC", "OANDA", "FOREXCOM", "IDC", "QUOTEX", "CURRENCY", "BINANCE"]

/-- The second URL tried per exchange (src/server.js 524): it carries the
ticker only — no exchange at all. -/
def urlNoExchange (tk interval theme : String) : String :=
  BASE_URL ++ "/snapshot/" ++ tk ++ "?tf=" ++ interval ++ "&theme=" ++ theme

/-- The four URLs tried per exchange (src/server.js 522-527). -/
def snapshotUrls (base ex tk interval theme : String) : List String :=
  [BASE_URL ++ "/snapshot/" ++ ex ++ ":" ++ tk ++ "?tf=" ++ interval ++
     "&theme=" ++ theme,
   urlNoExchange tk interval theme,
   BASE_URL ++ "/run?base=" ++ base ++ "&exchange=" ++ ex ++ "&ticker=" ++ tk ++
     "&interval=" ++ interval ++ "&theme=" ++ theme,
   BASE_URL ++ "/run?exchange=" ++ ex ++ "&ticker=" ++ tk ++
     "&interval=" ++ interval ++ "&theme=" ++ theme]

/-- The inner `for u in urls` loop (src/server.js 528-535): returns the
URLs attempted in order and the first hit. -/
def tryUrls (fetchUrl : String → Option Bytes) :
    List String → List String × Option Bytes
  | [] => ([], none)
  | u :: rest =>
    match fetchUrl u with
    | some png => ([u], some png)
    | none =>
      let r := tryUrls fetchUrl rest
      (u :: r.1, r.2)

/-- The candidate exchanges of `fetch_snapshot_png_any` (src/server.js
499-515): the primary (when non-empty), then the alternates, then the
global list, deduplicated by uppercased name preserving first
occurrence. -/
def fetchExchangesList (primary_ex : String)
    (alt_exchanges : List String) : List String :=
  dedupUpper ((if primary_ex = "" then [] else [primary_ex]) ++
    alt_exchanges ++ SNAPSHOT_GLOBAL_EXCHANGES)

/-- The outer `for ex in dedup` loop (src/server.js 518-537): per exchange
try its four URLs; on the first hit return `(png, ex)` — `ex` being the
loop's current exchange, whichever URL actually hit.  Also returns the
`tried` list of `(exchange, url)` attempts in order. -/
def fetchLoop (fetchUrl : String → Option Bytes)
    (base tk interval theme : String) :
    List String → List (String × String) × Option (Bytes × String)
  | [] => ([], none)
  | ex :: rest =>
    let r := tryUrls fetchUrl (snapshotUrls base ex tk interval theme)
    match r.2 with
    | some png => (r.1.map (fun u => (ex, u)), some (png, ex))
    | none =>
      let r2 := fetchLoop fetchUrl base tk interval theme rest
      (r.1.map (fun u => (ex, u)) ++ r2.1, r2.2)

/-- `fetch_snapshot_png_any` (src/server.js 484-539); `none` models the
final `raise RuntimeError` when every exchange fails. -/
def fetch_snapshot_png_any (fetchUrl : String → Option Bytes)
    (primary_ex tk interval theme base : String)
    (alt_exchanges : List String) :
    List (String × String) × Option (Bytes × String) :=
  fetchLoop fetchUrl base tk interval theme
    (fetchExchangesList primary_ex alt_exchanges)

/-- Oracle for the misreport counterexample: the upstream serves a PNG
only for the exchange-less `/snapshot/EURUSD` URL. -/
def fetchW : String → Option Bytes :=
  fun u => if u == urlNoExchange "EURUSD" "1" "dark" then some [7] else none

/-!
## Page-concurrency queue of part_002 (`AsyncQueue`, 284-302)
-/

/-- `AsyncQueue` state: `active` and the FIFO `q` of pending acquires (by
request id).  `active` is an `Int`, mirroring the JS decrement. -/
structure AQState where
  active : Int
  q : List Nat
  deriving Repr, DecidableEq

/-- `AsyncQueue.acquire` (part_002 290-295): take a slot when under the
limit, else append to the FIFO queue; a queued acquire leaves its promise
pending — it never fails. -/
def aqAcquire (limit : Int) (s : AQState) (rid : Nat) : AQState × Bool :=
  if s.active < limit then ({ s with active := s.active + 1 }, true)
  else ({ s with q := s.q ++ [rid] }, false)

/-- The decrement of `AsyncQueue.release`, clamped at 0
(`this.active--; if (this.active<0) this.active=0`). -/
def aqDec (x : Int) : Int :=
  if x - 1 < 0 then 0 else x - 1

/-- `AsyncQueue.release` (part_002 296-301): decrement (clamped), then
grant the front of the queue unconditionally when one is waiting. -/
def aqRelease (s : AQState) : AQState × Option Nat :=
  match s.q with
  | [] => (⟨aqDec s.active, []⟩, none)
  | r :: rest => (⟨aqDec s.active + 1, rest⟩, some r)

/-- States reachable by proper use of the queue: every release is
performed by a current holder (`0 < active`), which the
`page.on('close', () => this.queue.release())` pairing with `newPage`
guarantees. -/
inductive AQReachable (limit : Int) : AQState → Prop where
  | init : AQReachable limit ⟨0, []⟩
  | acq : ∀ s rid, AQReachable limit s →
      AQReachable limit (aqAcquire limit s rid).1
  | rel : ∀ s, AQReachable limit s → 0 < s.active →
      AQReachable limit (aqRelease s).1

/-! ### Theorems -/

theorem runFallback_tried_leads (engine : String → Option Bytes)
    (l : List String) : ∃ rest, (runFallback engine l).1 ++ rest = l := by
  induction l with
  | nil => exact ⟨[], rfl⟩
  | cons ex rest ih =>
    cases he : engine ex with
    | some buf => exact ⟨rest, by simp [runFallback, he]⟩
    | none =>
      obtain ⟨q, hq⟩ := ih
      exact ⟨q, by simp [runFallback, he, hq]⟩

theorem runFallback_success (engine : String → Option Bytes)
    (l : List String) (buf : Bytes) (ex : String)
    (h : (runFallback engine l).2 = some (buf, ex)) :
    engine ex = some buf ∧
      ∃ t, (runFallback engine l).1 = t ++ [ex] ∧ ∀ e ∈ t, engine e = none := by
  induction l with
  | nil => simp [runFallback] at h
  | cons a rest ih =>
    cases he : engine a with
    | some b =>
      simp [runFallback, he] at h
      obtain ⟨hb, ha⟩ := h
      subst ha
      refine ⟨by simpa [hb] using he, [], by simp [runFallback, he], by simp⟩
    | none =>
      simp only [runFallback, he] at h
      obtain ⟨hex, t, ht, hall⟩ := ih h
      refine ⟨hex, a :: t, by simp [runFallback, he, ht], ?_⟩
      intro e hmem
      rcases List.mem_cons.mp hmem with h1 | h2
      · simpa [h1] using he
      · exact hall e h2

theorem runFallback_failure (engine : String → Option Bytes)
    (l : List String) (h : (runFallback engine l).2 = none) :
    (runFallback engine l).1 = l ∧ ∀ e ∈ l, engine e = none := by
  induction l with
  | nil => simp [runFallback]
  | cons a rest ih =>
    cases he : engine a with
    | some b => simp [runFallback, he] at h
    | none =>
      simp only [runFallback, he] at h
      obtain ⟨h1, h2⟩ := ih h
      refine ⟨by simp [runFallback, he, h1], ?_⟩
      intro e hmem
      rcases List.mem_cons.mp hmem with hm | hm
      · simpa [hm] using he
      · exact h2 e hm

theorem dedupUpper_head (x : String) (xs : List String) :
    (dedupUpper (x :: xs)).head? = some (strUpper x) := by
  simp [dedupUpper, dedupUpperAux]

theorem fetchLoop_eq_runFallback (fetchUrl : String → Option Bytes)
    (base tk interval theme : String) (l : List String) :
    (fetchLoop fetchUrl base tk interval theme l).2 =
      (runFallback
        (fun e => (tryUrls fetchUrl (snapshotUrls base e tk interval theme)).2)
        l).2 := by
  induction l with
  | nil => rfl
  | cons ex rest ih =>
    rcases hr : (tryUrls fetchUrl (snapshotUrls base ex tk interval theme)).2
      with _ | png
    · simp only [fetchLoop, runFallback, hr, ih]
    · simp only [fetchLoop, runFallback, hr]

theorem fetchLoop_tried (fetchUrl : String → Option Bytes)
    (base tk interval theme : String) (l : List String) :
    (fetchLoop fetchUrl base tk interval theme l).1 =
      ((runFallback
        (fun e => (tryUrls fetchUrl (snapshotUrls base e tk interval theme)).2)
        l).1.map
          (fun e => (tryUrls fetchUrl (snapshotUrls base e tk interval theme)).1.map
            (fun u => (e, u)))).flatten := by
  induction l with
  | nil => rfl
  | cons ex rest ih =>
    rcases hr : (tryUrls fetchUrl (snapshotUrls base ex tk interval theme)).2
      with _ | png
    · simp only [fetchLoop, runFallback, hr, List.map_cons, ih]
      rw [List.flatten_cons]
    · simp only [fetchLoop, runFallback, hr, List.map_cons]
      simp

theorem fetchExchangesList_head (primary_ex : String)
    (alt_exchanges : List String) (hp : primary_ex ≠ "") :
    (fetchExchangesList primary_ex alt_exchanges).head? =
      some (strUpper primary_ex) := by
  have h : fetchExchangesList primary_ex alt_exchanges =
      dedupUpper (primary_ex :: (alt_exchanges ++ SNAPSHOT_GLOBAL_EXCHANGES)) := by
    unfold fetchExchangesList
    rw [if_neg hp]
    rfl
  rw [h]
  exact dedupUpper_head _ _

/-- C1 (amended): both cited fallback orchestrators attempt the resolver's
candidates strictly in resolver order — the primary source first
(uppercased), then the alternates, deduplicated case-insensitively
preserving first occurrence (`fetch_snapshot_png_any` additionally appends
a hard-coded global exchange list after the alternates and tries four
endpoint URLs per exchange) — stop at the first attempt that succeeds,
return its image bytes, and never attempt a later-listed candidate before
an earlier-listed one: the attempted exchanges are always an initial run
of the candidate list and every exchange attempted before the successful
one failed.  `captureWithFallback` returns the exchange whose capture
produced the image; `fetch_snapshot_png_any` reports only the loop's
current exchange (the exchange whose URL block produced the hit), even
when the hit came from the exchange-less `/snapshot/{ticker}` URL, so the
reported source may not be the source that actually served the image. -/
theorem captureWithFallback_order (engine : String → Option Bytes)
    (fetchUrl : String → Option Bytes)
    (exchange : String) (alts : List String)
    (primary_ex tk interval theme base : String) (fAlts : List String) :
    (dedupUpper (exchange :: alts)).head? = some (strUpper exchange) ∧
    (∃ rest, (captureWithFallback engine exchange alts).1 ++ rest =
        dedupUpper (exchange :: alts)) ∧
    (∀ buf ex, (captureWithFallback engine exchange alts).2 = some (buf, ex) →
      engine ex = some buf ∧
        ∃ t, (captureWithFallback engine exchange alts).1 = t ++ [ex] ∧
          ∀ e ∈ t, engine e = none) ∧
    ((captureWithFallback engine exchange alts).2 = none →
      (captureWithFallback engine exchange alts).1 = dedupUpper (exchange :: alts) ∧
        ∀ e ∈ dedupUpper (exchange :: alts), engine e = none) ∧
    (primary_ex ≠ "" → (fetchExchangesList primary_ex fAlts).head? =
        some (strUpper primary_ex)) ∧
    (∀ png ex,
      (fetch_snapshot_png_any fetchUrl primary_ex tk interval theme base fAlts).2 =
          some (png, ex) →
        (tryUrls fetchUrl (snapshotUrls base ex tk interval theme)).2 = some png ∧
        ∃ t, (runFallback
            (fun e => (tryUrls fetchUrl (snapshotUrls base e tk interval theme)).2)
            (fetchExchangesList primary_ex fAlts)).1 = t ++ [ex] ∧
          ∀ e ∈ t,
            (tryUrls fetchUrl (snapshotUrls base e tk interval theme)).2 = none) ∧
    (∃ rest, (runFallback
        (fun e => (tryUrls fetchUrl (snapshotUrls base e tk interval theme)).2)
        (fetchExchangesList primary_ex fAlts)).1 ++ rest =
          fetchExchangesList primary_ex fAlts) ∧
    ((fetch_snapshot_png_any fetchUrl primary_ex tk interval theme base fAlts).1 =
      ((runFallback
        (fun e => (tryUrls fetchUrl (snapshotUrls base e tk interval theme)).2)
        (fetchExchangesList primary_ex fAlts)).1.map
          (fun e => (tryUrls fetchUrl (snapshotUrls base e tk interval theme)).1.map
            (fun u => (e, u)))).flatten) := by
  refine ⟨dedupUpper_head exchange alts, ?_, ?_, ?_, ?_, ?_, ?_, ?_⟩
  · exact runFallback_tried_leads engine (dedupUpper (exchange :: alts))
  · intro buf ex h
    exact runFallback_success engine (dedupUpper (exchange :: alts)) buf ex h
  · intro h
    exact runFallback_failure engine (dedupUpper (exchange :: alts)) h
  · exact fetchExchangesList_head primary_ex fAlts
  · intro png ex h
    rw [fetch_snapshot_png_any, fetchLoop_eq_runFallback] at h
    exact runFallback_success _ _ png ex h
  · exact runFallback_tried_leads _ _
  · rw [fetch_snapshot_png_any]
    exact fetchLoop_tried fetchUrl base tk interval theme _

/-- C1 witness: a concrete run of each orchestrator — in
`captureWithFallback` the primary ("fx") and its duplicate alternate
("FX") fail and "OANDA" succeeds; in `fetch_snapshot_png_any` the first
exchange's URL block hits (via the exchange-less URL, see `fetchW`). -/
theorem captureWithFallback_order_witness :
    (engineW "OANDA" = some [1] ∧
      ∃ t, (captureWithFallback engineW "fx" ["FX", "OANDA"]).1 = t ++ ["OANDA"] ∧
        ∀ e ∈ t, engineW e = none) ∧
    ((tryUrls fetchW (snapshotUrls "chart" "FX" "EURUSD" "1" "dark")).2 = some [7] ∧
      ∃ t, (runFallback
          (fun e => (tryUrls fetchW (snapshotUrls "chart" e "EURUSD" "1" "dark")).2)
          (fetchExchangesList "FX" [])).1 = t ++ ["FX"] ∧
        ∀ e ∈ t,
          (tryUrls fetchW (snapshotUrls "chart" e "EURUSD" "1" "dark")).2 = none) :=
  ⟨(captureWithFallback_order engineW fetchW "fx" ["FX", "OANDA"] "FX" "EURUSD"
      "1" "dark" "chart" []).2.2.1 [1] "OANDA" (by decide),
   (captureWithFallback_order engineW fetchW "fx" ["FX", "OANDA"] "FX" "EURUSD"
      "1" "dark" "chart" []).2.2.2.2.2.1 [7] "FX" (by decide)⟩

/-- C1 counterexample: with an upstream that serves a PNG only for the
exchange-less `/snapshot/EURUSD` URL, `fetch_snapshot_png_any` reports
"FX" as the exchange used when the candidate loop starts at FX, and
"OANDA" when it starts at OANDA — the same upstream behaviour and the
same image, yet two different reported sources.  The reported source is
merely the loop's current exchange, not the source that served the image:
the only URL that ever succeeded names no exchange at all. -/
theorem fetch_source_misreport :
    (fetch_snapshot_png_any fetchW "FX" "EURUSD" "1" "dark" "chart" []).2 =
      some ([7], "FX") ∧
    (fetch_snapshot_png_any fetchW "OANDA" "EURUSD" "1" "dark" "chart" []).2 =
      some ([7], "OANDA") ∧
    fetchW (BASE_URL ++ "/snapshot/FX:EURUSD?tf=1&theme=dark") = none ∧
    fetchW (BASE_URL ++ "/snapshot/OANDA:EURUSD?tf=1&theme=dark") = none ∧
    fetchW (urlNoExchange "EURUSD" "1" "dark") = some [7] := by
  refine ⟨rfl, rfl, ?_, ?_, rfl⟩ <;> decide

/-- C2 (amended): for every raw symbol string — including the empty string
and arbitrary garbage — both cited resolvers return a non-empty candidate
list and never raise (they are total functions); the empty string is
substituted by the configured default (default exchange, default ticker
"EURUSD", and the configured fallback-source list); and an unrecognized
input (no table hit, no explicit `EXCHANGE:TICKER` form) falls back to a
default source with a stripped uppercase ticker — exactly the
punctuation-stripped uppercase input in src/server.js `resolve_symbol`,
while part_000's `resolveSymbol` additionally removes a trailing "OTC"
from it (`stripPairCore`). -/
theorem resolver_totality (raw : String) :
    candidatesOf (resolve_symbol raw) ≠ [] ∧
    resolve_symbol "" = ⟨DEFAULT_EXCHANGE, "EURUSD", false, KNOWN_EXCHANGES_FX⟩ ∧
    (raw ≠ "" →
      lookupXref (canonKeyPy (strUpper (strTrim raw))) = none →
      strContains (strUpper (strTrim raw)) ":" = false →
      (resolve_symbol raw).exchange = DEFAULT_EXCHANGE ∧
      (resolve_symbol raw).ticker = stripNonAlnumUpper (strUpper (strTrim raw))) ∧
    candidatesOf (resolveSymbolJs raw) ≠ [] ∧
    resolveSymbolJs "" = ⟨TV_DEFAULT_EX, "EURUSD", false, EXCHANGE_FALLBACKS⟩ ∧
    (raw ≠ "" →
      strContains (strTrim raw) ":" = false →
      (resolveSymbolJs raw).exchange = TV_DEFAULT_EX ∧
      (resolveSymbolJs raw).ticker = stripPairCore (strUpper (strTrim raw))) := by
  refine ⟨by simp [candidatesOf], by decide, ?_, by simp [candidatesOf],
    by decide, ?_⟩
  · intro h1 h2 h3
    simp [resolve_symbol, h1, h2, h3]
  · intro h1 h3
    simp [resolveSymbolJs, h1, h3]

/-- C2 counterexample: for the unrecognized input "FOOBAR-OTC", part_000's
`resolveSymbol` yields ticker "FOOBAR" — `stripPairCore` also removes the
trailing "OTC" — not the punctuation-stripped uppercase ticker
"FOOBAROTC" the claim prescribes (src/server.js `resolve_symbol` does
yield "FOOBAROTC"). -/
theorem resolver_otc_strip_counterexample :
    (resolveSymbolJs "FOOBAR-OTC").ticker = "FOOBAR" ∧
    stripNonAlnumUpper (strUpper (strTrim "FOOBAR-OTC")) = "FOOBAROTC" ∧
    (resolve_symbol "FOOBAR-OTC").ticker = "FOOBAROTC" ∧
    ("FOOBAR" : String) ≠ "FOOBAROTC" := by
  decide

/-- C2 witness: the garbage input "FOO@BAR1" is not in any table, has no
colon, and resolves in both variants to the stripped uppercase ticker on
the default exchange. -/
theorem resolver_totality_witness :
    ("FOO@BAR1" : String) ≠ "" ∧
    (resolve_symbol "FOO@BAR1").exchange = DEFAULT_EXCHANGE ∧
    (resolve_symbol "FOO@BAR1").ticker =
      stripNonAlnumUpper (strUpper (strTrim "FOO@BAR1")) ∧
    (resolveSymbolJs "FOO@BAR1").exchange = TV_DEFAULT_EX ∧
    (resolveSymbolJs "FOO@BAR1").ticker =
      stripPairCore (strUpper (strTrim "FOO@BAR1")) := by
  refine ⟨by decide, ?_, ?_, ?_, ?_⟩
  · exact ((resolver_totality "FOO@BAR1").2.2.1 (by decide) (by decide)
      (by decide)).1
  · exact ((resolver_totality "FOO@BAR1").2.2.1 (by decide) (by decide)
      (by decide)).2
  · exact ((resolver_totality "FOO@BAR1").2.2.2.2.2 (by decide) (by decide)).1
  · exact ((resolver_totality "FOO@BAR1").2.2.2.2.2 (by decide) (by decide)).2

/-- C3: resolving "EUR/USD-OTC" yields a candidate list whose first entry
has ticker "EURUSD" and the OTC flag set, in all three resolver variants
(src/server.js `resolve_symbol` maps it to primary exchange "QUOTEX";
part_002 and part_000 map it to underlying ticker "EURUSD" as well). -/
theorem resolve_otc_mapping :
    (resolve_symbol "EUR/USD-OTC").ticker = "EURUSD" ∧
    (resolve_symbol "EUR/USD-OTC").isOtc = true ∧
    (candidatesOf (resolve_symbol "EUR/USD-OTC")).head? = some ("QUOTEX", "EURUSD") ∧
    (resolveSymbolIq "EUR/USD-OTC").tvTicker = "EURUSD" ∧
    (resolveSymbolIq "EUR/USD-OTC").isOTC = true ∧
    (resolveSymbolJs "EUR/USD-OTC").ticker = "EURUSD" ∧
    (resolveSymbolJs "EUR/USD-OTC").isOtc = true := by
  decide

/-- C4 counterexample: with no exception anywhere, a 0-byte screenshot
still yields `ok = true` in `screenshotTv`, and `captureTradingViewChart`
returns the empty buffer as a successful result — no minimum-size floor is
checked anywhere, so an undersized/blank screenshot is not treated as a
failed attempt. -/
theorem undersized_screenshot_accepted :
    screenshotTv (Except.ok ()) (Except.ok []) = ⟨true, some [], none⟩ ∧
    ((screenshotTv (Except.ok ()) (Except.ok [])).buf.getD [0]).length = 0 ∧
    captureTradingViewChart (Except.ok ()) (Except.ok []) = Except.ok [] :=
  ⟨rfl, rfl, rfl⟩

/-- C4 amended: when a single-candidate attempt returns ok = true the
returned bytes are non-null (they are exactly the screenshot bytes), but
no minimum-size floor is enforced: the screenshot is returned as-is, so a
below-floor screenshot still yields ok = true when no exception
occurred. -/
theorem screenshot_ok_bytes (nav : Except String Unit)
    (shot : Except String Bytes) :
    ((screenshotTv nav shot).ok = true → (screenshotTv nav shot).buf ≠ none) ∧
    (∀ buf, nav = Except.ok () → shot = Except.ok buf →
      screenshotTv nav shot = ⟨true, some buf, none⟩) := by
  constructor
  · intro h
    cases nav with
    | error e => simp [screenshotTv] at h
    | ok u =>
      cases shot with
      | error e => simp [screenshotTv] at h
      | ok buf => simp [screenshotTv]
  · intro buf h1 h2
    subst h1
    subst h2
    rfl

/-- C4 witness: a concrete successful attempt returns exactly the
screenshot bytes. -/
theorem screenshot_ok_bytes_witness :
    (Except.ok () : Except String Unit) = Except.ok () ∧
    screenshotTv (Except.ok ()) (Except.ok [1, 2]) = ⟨true, some [1, 2], none⟩ :=
  ⟨rfl, (screenshot_ok_bytes (Except.ok ()) (Except.ok [1, 2])).2 [1, 2] rfl rfl⟩

/-- C5 counterexample: when every candidate fails, part_000's handler
sends the plain error-message string with status 500 (a body that does not
begin with the PNG magic bytes), and part_002's /run sends a text/plain
404 — there is no placeholder image generator in the code. -/
theorem allfail_plaintext_response :
    (handleSnapshotRequest (Except.error "All exchanges failed for EURUSD")).status = 500 ∧
    (handleSnapshotRequest (Except.error "All exchanges failed for EURUSD")).contentType ≠ "image/png" ∧
    startsWithBytes PNG_MAGIC
      (handleSnapshotRequest (Except.error "All exchanges failed for EURUSD")).body = false ∧
    (runEndpointFailure "All sources failed for EURUSD").contentType = "text/plain" ∧
    startsWithBytes PNG_MAGIC (runEndpointFailure "All sources failed for EURUSD").body = false := by
  decide

/-- C5 amended: for a request for which all candidates fail the HTTP layer
returns a textual error response rather than an image — status 500 with
the error message as body in part_000's `handleSnapshotRequest` (express
defaults a string body's content type to text/html), and status 404
text/plain "Not Found" plus the message in part_002's /run; an image body
is produced only on success. -/
theorem allfail_response_shape (e msg : String) :
    handleSnapshotRequest (Except.error e) = ⟨500, "text/html", textBytes e⟩ ∧
    runEndpointFailure msg = ⟨404, "text/plain", textBytes ("Not Found\n" ++ msg)⟩ ∧
    (∀ png ex, handleSnapshotRequest (Except.ok (png, ex)) = ⟨200, "image/png", png⟩) :=
  ⟨rfl, rfl, fun _ _ => rfl⟩

/-- C8 counterexample: in src/index.js `captureTradingView` a navigation
timeout IS raised as an exception to the caller (there is no try/catch
around `page.goto`), and in part_000's `captureTradingViewChart` a
navigation error is not captured as a failed result at all — the attempt
proceeds and returns the screenshot as a success. -/
theorem nav_error_counterexample :
    captureTradingView (Except.error "Navigation timeout of 45000 ms exceeded")
        (Except.ok [1]) =
      Except.error "Navigation timeout of 45000 ms exceeded" ∧
    captureTradingViewChart (Except.error "nav timeout") (Except.ok [1, 2]) =
      Except.ok [1, 2] :=
  ⟨rfl, rfl⟩

/-- C8 amended: only part_002's `screenshotTv` (and `screenshotIq`)
captures a navigation error/timeout as a failed result for that attempt —
ok false with the error string recorded, nothing raised to the caller —
and there it is fatal to the overall request only when every candidate
fails (`tvFallbackChain` returns the first ok result and reports
all-sources-failed only after exhausting the list).  In part_000's
`captureTradingViewChart` the navigation error is merely logged and the
attempt proceeds best-effort to the screenshot; in src/index.js's
`captureTradingView` the navigation error propagates to the caller. -/
theorem nav_error_amended (e tk : String) (shot : Except String Bytes) :
    screenshotTv (Except.error e) shot = ⟨false, none, some e⟩ ∧
    captureTradingViewChart (Except.error e) shot = shot ∧
    captureTradingView (Except.error e) shot = Except.error e ∧
    (∀ engine : String → ShotResult, ∀ ex rest, (engine ex).ok = true →
      tvFallbackChain engine tk (ex :: rest) = engine ex) ∧
    (∀ engine : String → ShotResult, ∀ ex rest, (engine ex).ok = false →
      tvFallbackChain engine tk (ex :: rest) = tvFallbackChain engine tk rest) ∧
    (∀ engine : String → ShotResult,
      tvFallbackChain engine tk [] =
        ⟨false, none, some ("All sources failed for " ++ tk)⟩) := by
  refine ⟨rfl, rfl, rfl, ?_, ?_, fun engine => rfl⟩
  · intro engine ex rest h
    simp [tvFallbackChain, h]
  · intro engine ex rest h
    simp [tvFallbackChain, h]

/-- C8 witness: a concrete navigation timeout is recorded as a failed
result by `screenshotTv`, not raised. -/
theorem nav_error_amended_witness :
    screenshotTv (Except.error "timeout") (Except.ok [9]) =
      ⟨false, none, some "timeout"⟩ :=
  (nav_error_amended "timeout" "EURUSD" (Except.ok [9])).1

theorem try_url_success_iff (r : HttpResp) :
    (_try_url (some r)).success = true ↔
      (r.status = 200 ∧ strStartsWith (strLower r.contentType) "image" = true) ∨
        startsWithBytes PNG_MAGIC r.content = true := by
  simp only [_try_url]
  by_cases h1 : (r.status == 200 && strStartsWith (strLower r.contentType) "image") = true
  · rw [if_pos h1]
    simp only [Bool.and_eq_true, beq_iff_eq] at h1
    simp [h1]
  · rw [if_neg h1]
    by_cases h2 : startsWithBytes PNG_MAGIC r.content = true
    · rw [if_pos h2]
      simp [h2]
    · rw [if_neg h2]
      simp only [Bool.and_eq_true, beq_iff_eq] at h1
      simp [h1, h2]

theorem try_url_png_body (r : HttpResp)
    (h : (_try_url (some r)).success = true) :
    (_try_url (some r)).png = some r.content := by
  simp only [_try_url] at h ⊢
  by_cases h1 : (r.status == 200 && strStartsWith (strLower r.contentType) "image") = true
  · rw [if_pos h1]
  · rw [if_neg h1] at h ⊢
    by_cases h2 : startsWithBytes PNG_MAGIC r.content = true
    · rw [if_pos h2]
    · rw [if_neg h2] at h
      simp at h

/-- C9: the snapshot client `_try_url` reports a successful capture and
returns the response body as the image exactly when the response status is
200 with an image content type, or the body begins with the PNG magic
bytes; in particular a 4xx/5xx response whose body is a PNG is accepted as
the authoritative successful result, and a request exception is a
failure. -/
theorem try_url_accepts_png (r : HttpResp) :
    ((_try_url (some r)).success = true ↔
      (r.status = 200 ∧ strStartsWith (strLower r.contentType) "image" = true) ∨
        startsWithBytes PNG_MAGIC r.content = true) ∧
    ((_try_url (some r)).success = true → (_try_url (some r)).png = some r.content) ∧
    (_try_url none).success = false ∧
    (∀ body : Bytes, startsWithBytes PNG_MAGIC body = true →
      _try_url (some ⟨500, "text/html", body⟩) = ⟨true, some body, none⟩) := by
  refine ⟨try_url_success_iff r, try_url_png_body r, rfl, ?_⟩
  intro body hb
  simp [_try_url, hb]

/-- C9 witness: a status-500 text/html response whose body is a PNG is
accepted, with the body returned as the image. -/
theorem try_url_accepts_png_witness :
    startsWithBytes PNG_MAGIC (PNG_MAGIC ++ [0]) = true ∧
    _try_url (some ⟨500, "text/html", PNG_MAGIC ++ [0]⟩) =
      ⟨true, some (PNG_MAGIC ++ [0]), none⟩ :=
  ⟨by decide,
    (try_url_accepts_png ⟨500, "text/html", PNG_MAGIC ++ [0]⟩).2.2.2
      (PNG_MAGIC ++ [0]) (by decide)⟩

theorem releaseCaptureSlot_bounds (maxConc : Int) (s : SlotState)
    (h0 : 0 < s.active) (hle : s.active ≤ maxConc) :
    0 ≤ (releaseCaptureSlot maxConc s).1.active ∧
      (releaseCaptureSlot maxConc s).1.active ≤ maxConc := by
  unfold releaseCaptureSlot
  rcases hq : s.queue with _ | ⟨r, rest⟩
  · simp only [hq]
    show 0 ≤ s.active - 1 ∧ s.active - 1 ≤ maxConc
    omega
  · simp only [hq]
    by_cases hlt : s.active - 1 < maxConc
    · rw [if_pos hlt]
      show 0 ≤ s.active - 1 + 1 ∧ s.active - 1 + 1 ≤ maxConc
      omega
    · rw [if_neg hlt]
      show 0 ≤ s.active - 1 ∧ s.active - 1 ≤ maxConc
      omega

theorem slot_inv (maxConc : Int) (hm : 0 ≤ maxConc) (s : SlotState)
    (h : SlotReachable maxConc s) : 0 ≤ s.active ∧ s.active ≤ maxConc := by
  induction h with
  | init => exact ⟨le_refl 0, hm⟩
  | acq t rid hr ih =>
    by_cases hlt : t.active < maxConc
    · unfold acquireCaptureSlot
      rw [if_pos hlt]
      show 0 ≤ t.active + 1 ∧ t.active + 1 ≤ maxConc
      omega
    · unfold acquireCaptureSlot
      rw [if_neg hlt]
      exact ih
  | rel t hr hpos ih =>
    exact releaseCaptureSlot_bounds maxConc t hpos ih.2

theorem aqDec_of_pos (x : Int) (h : 0 < x) : aqDec x = x - 1 := by
  unfold aqDec
  rw [if_neg (by omega : ¬ x - 1 < 0)]

theorem aqRelease_bounds (limit : Int) (s : AQState)
    (h0 : 0 < s.active) (hle : s.active ≤ limit) :
    0 ≤ (aqRelease s).1.active ∧ (aqRelease s).1.active ≤ limit := by
  unfold aqRelease
  rcases hq : s.q with _ | ⟨r, rest⟩
  · simp only [hq]
    show 0 ≤ aqDec s.active ∧ aqDec s.active ≤ limit
    rw [aqDec_of_pos _ h0]
    omega
  · simp only [hq]
    show 0 ≤ aqDec s.active + 1 ∧ aqDec s.active + 1 ≤ limit
    rw [aqDec_of_pos _ h0]
    omega

theorem aq_inv (limit : Int) (hl : 0 ≤ limit) (s : AQState)
    (h : AQReachable limit s) : 0 ≤ s.active ∧ s.active ≤ limit := by
  induction h with
  | init => exact ⟨le_refl 0, hl⟩
  | acq t rid hr ih =>
    by_cases hlt : t.active < limit
    · unfold aqAcquire
      rw [if_pos hlt]
      show 0 ≤ t.active + 1 ∧ t.active + 1 ≤ limit
      omega
    · unfold aqAcquire
      rw [if_neg hlt]
      exact ih
  | rel t hr hpos ih =>
    exact aqRelease_bounds limit t hpos ih.2

/-- C6: in every reachable state of both cited session managers — the
part_000 capture semaphore and part_002's `AsyncQueue` (used by
`BrowserManager.newPage`) — the number of captures holding a page slot
never exceeds the configured cap, and acquiring never pushes it over the
cap; an acquire issued while the cap is reached is appended to the FIFO
queue (granted `false`, i.e. left pending — it neither fails nor takes an
extra slot); and a release while requests are queued grants exactly the
front of the queue, staying within the cap. -/
theorem slot_cap_invariant (maxConc limit : Int)
    (hm : 0 ≤ maxConc) (hl : 0 ≤ limit)
    (s : SlotState) (h : SlotReachable maxConc s)
    (s2 : AQState) (h2 : AQReachable limit s2) :
    s.active ≤ maxConc ∧
    (∀ rid, (acquireCaptureSlot maxConc s rid).1.active ≤ maxConc) ∧
    (∀ rid, maxConc ≤ s.active →
      acquireCaptureSlot maxConc s rid =
        ({ s with queue := s.queue ++ [rid] }, false)) ∧
    (∀ r rest, s.queue = r :: rest → 0 < s.active →
      (releaseCaptureSlot maxConc s).2 = some r ∧
        (releaseCaptureSlot maxConc s).1.queue = rest) ∧
    s2.active ≤ limit ∧
    (∀ rid, (aqAcquire limit s2 rid).1.active ≤ limit) ∧
    (∀ rid, limit ≤ s2.active →
      aqAcquire limit s2 rid = ({ s2 with q := s2.q ++ [rid] }, false)) ∧
    (∀ r rest, s2.q = r :: rest → 0 < s2.active →
      (aqRelease s2).2 = some r ∧ (aqRelease s2).1.q = rest ∧
        (aqRelease s2).1.active ≤ limit) := by
  have hinv := slot_inv maxConc hm s h
  have hinv2 := aq_inv limit hl s2 h2
  refine ⟨hinv.2, ?_, ?_, ?_, hinv2.2, ?_, ?_, ?_⟩
  · intro rid
    by_cases hlt : s.active < maxConc
    · unfold acquireCaptureSlot
      rw [if_pos hlt]
      show s.active + 1 ≤ maxConc
      omega
    · unfold acquireCaptureSlot
      rw [if_neg hlt]
      exact hinv.2
  · intro rid hcap
    unfold acquireCaptureSlot
    rw [if_neg (by omega : ¬ s.active < maxConc)]
  · intro r rest hq hpos
    unfold releaseCaptureSlot
    simp only [hq]
    rw [if_pos (by omega : s.active - 1 < maxConc)]
    exact ⟨rfl, rfl⟩
  · intro rid
    by_cases hlt : s2.active < limit
    · unfold aqAcquire
      rw [if_pos hlt]
      show s2.active + 1 ≤ limit
      omega
    · unfold aqAcquire
      rw [if_neg hlt]
      exact hinv2.2
  · intro rid hcap
    unfold aqAcquire
    rw [if_neg (by omega : ¬ s2.active < limit)]
  · intro r rest hq hpos
    unfold aqRelease
    simp only [hq]
    refine ⟨trivial, trivial, ?_⟩
    show aqDec s2.active + 1 ≤ limit
    rw [aqDec_of_pos _ hpos]
    omega

/-- C6 witness: the invariant applied to both initial states with the
default caps of 2 (part_000 `TV_MAX_CONCURRENT_CAPTURES`) and 2
(part_002 `MAX_CONCURRENT_PAGES`). -/
theorem slot_cap_invariant_witness :
    (0 : Int) ≤ 2 ∧ (SlotState.mk 0 []).active ≤ 2 ∧
      (AQState.mk 0 []).active ≤ 2 := by
  refine ⟨by decide, ?_, ?_⟩
  · exact (slot_cap_invariant 2 2 (by decide) (by decide)
      (SlotState.mk 0 []) SlotReachable.init
      (AQState.mk 0 []) AQReachable.init).1
  · exact (slot_cap_invariant 2 2 (by decide) (by decide)
      (SlotState.mk 0 []) SlotReachable.init
      (AQState.mk 0 []) AQReachable.init).2.2.2.2.1

/-- C7: after a browser disconnect, part_000's `launchBrowserIfNeeded`
launches a fresh browser (new handle, state repopulated) because the
disconnect handler cleared `browser`/`browserReady`; but part_002's
`BrowserManager.ensure` returns the stale handle resolved by the
still-memoized `launching` promise — no fresh launch happens and the
`browser` field stays null, contradicting the intent of its own
disconnect handler. -/
theorem browser_relaunch_divergence :
    (launchBrowserIfNeeded (disconnectA (launchBrowserIfNeeded ⟨none, false⟩ 0).1) 1).2 = 1 ∧
    (launchBrowserIfNeeded (disconnectA (launchBrowserIfNeeded ⟨none, false⟩ 0).1) 1).1 =
      ⟨some 1, true⟩ ∧
    (ensureB (disconnectB (ensureB ⟨none, none⟩ 0).1) 1).2 = 0 ∧
    (ensureB (disconnectB (ensureB ⟨none, none⟩ 0).1) 1).1 = ⟨none, some 0⟩ := by
  decide

theorem mapSet_length (c : Cache) (url : String) (v : CacheEntry) :
    (mapSet c url v).length =
      if c.any (fun e => e.1 == url) then c.length else c.length + 1 := by
  unfold mapSet
  split_ifs with h
  · simp
  · simp

theorem foldl_pick_mem (l : Cache) :
    ∀ b : String × CacheEntry,
      l.foldl (fun best cur => if cur.2.ts < best.2.ts then cur else best) b = b ∨
        l.foldl (fun best cur => if cur.2.ts < best.2.ts then cur else best) b ∈ l := by
  induction l with
  | nil =>
    intro b
    left
    rfl
  | cons x xs ih =>
    intro b
    rw [List.foldl_cons]
    rcases ih (if x.2.ts < b.2.ts then x else b) with h | h
    · rw [h]
      by_cases hx : x.2.ts < b.2.ts
      · right
        rw [if_pos hx]
        exact List.mem_cons_self x xs
      · left
        rw [if_neg hx]
    · right
      exact List.mem_cons_of_mem x h

theorem oldestKey_mem (c : Cache) (k : String) (h : oldestKey c = some k) :
    ∃ e ∈ c, e.1 = k := by
  cases c with
  | nil => simp [oldestKey] at h
  | cons e rest =>
    simp only [oldestKey, Option.some.injEq] at h
    rcases foldl_pick_mem (e :: rest) e with hp | hp
    · exact ⟨e, List.mem_cons_self e rest, by rw [← h, hp]⟩
    · exact ⟨_, hp, h⟩

theorem oldestKey_some_of_ne (c : Cache) (h : c ≠ []) :
    ∃ k, oldestKey c = some k := by
  cases c with
  | nil => exact absurd rfl h
  | cons e rest => exact ⟨_, rfl⟩

theorem filter_out_mem_lt (c : Cache) (k : String)
    (hmem : ∃ e ∈ c, e.1 = k) :
    (c.filter (fun e => e.1 != k)).length < c.length := by
  induction c with
  | nil => simp at hmem
  | cons x xs ih =>
    rcases hmem with ⟨e, he, hk⟩
    rcases List.mem_cons.mp he with heq | hmem2
    · have hx : (x.1 != k) = false := by
        subst heq
        simp [hk]
      simp only [List.filter_cons, hx, Bool.false_eq_true, if_false, List.length_cons]
      have := List.length_filter_le (fun e => e.1 != k) xs
      omega
    · by_cases hx : (x.1 != k) = true
      · simp only [List.filter_cons, hx, if_true, List.length_cons]
        have := ih ⟨e, hmem2, hk⟩
        omega
      · have hx2 : (x.1 != k) = false := by
          simpa using hx
        simp only [List.filter_cons, hx2, Bool.false_eq_true, if_false, List.length_cons]
        have := List.length_filter_le (fun e => e.1 != k) xs
        omega

/-- C10 counterexample: an entry stored exactly `CACHE_TTL_MS` (10.000 s)
ago — hence not stored *less* than the 10-second TTL ago — is still served
by `cacheGet`, because the code only expires entries strictly older than
the TTL. -/
theorem cache_ttl_boundary :
    (cacheGet [("u", ⟨0, [7]⟩)] CACHE_TTL_MS "u").2 = some [7] ∧
    ¬ (CACHE_TTL_MS - 0 < CACHE_TTL_MS) :=
  ⟨rfl, by omega⟩

/-- C10 amended: part_002's /run endpoint may serve an identical query
from the in-memory cache (a hit is returned directly as image/png); a
cached image is served only if its age is at most the 10-second TTL
(`now - ts ≤ CACHE_TTL_MS`; anything strictly older is deleted and
missed), and `cachePut` keeps the cache at no more than `CACHE_MAX = 50`
entries by evicting the earliest-timestamped entry on overflow — so a
returned image can be stale by up to and including 10 seconds. -/
theorem cache_semantics (c : Cache) (now : Nat) (url : String) (buf : Bytes) :
    (∀ b, (cacheGet c now url).2 = some b →
      ∃ e, c.lookup url = some e ∧ b = e.buf ∧ now - e.ts ≤ CACHE_TTL_MS) ∧
    (c.length ≤ CACHE_MAX → (cachePut c now url buf).length ≤ CACHE_MAX) ∧
    (CACHE_MAX < (mapSet c url ⟨now, buf⟩).length →
      ∃ k, oldestKey (mapSet c url ⟨now, buf⟩) = some k ∧
        cachePut c now url buf =
          (mapSet c url ⟨now, buf⟩).filter (fun e => e.1 != k)) ∧
    (∀ b, runCacheRespond (some b) = some ⟨200, "image/png", b⟩) := by
  refine ⟨?_, ?_, ?_, fun b => rfl⟩
  · intro b hb
    rcases hl : c.lookup url with _ | v
    · simp [cacheGet, hl] at hb
    · simp only [cacheGet, hl] at hb
      by_cases ht : CACHE_TTL_MS < now - v.ts
      · rw [if_pos ht] at hb
        simp at hb
      · rw [if_neg ht] at hb
        simp at hb
        exact ⟨v, rfl, hb.symm, by omega⟩
  · intro hlen
    have h2 : (mapSet c url ⟨now, buf⟩).length ≤ c.length + 1 := by
      rw [mapSet_length]
      split_ifs <;> omega
    unfold cachePut
    by_cases hover : CACHE_MAX < (mapSet c url ⟨now, buf⟩).length
    · rw [if_pos hover]
      have hne : mapSet c url ⟨now, buf⟩ ≠ [] := by
        intro hnil
        rw [hnil] at hover
        simp [CACHE_MAX] at hover
      obtain ⟨k, hk⟩ := oldestKey_some_of_ne _ hne
      simp only [hk]
      have hlt := filter_out_mem_lt (mapSet c url ⟨now, buf⟩) k
        (oldestKey_mem _ k hk)
      omega
    · rw [if_neg hover]
      omega
  · intro hover
    have hne : mapSet c url ⟨now, buf⟩ ≠ [] := by
      intro hnil
      rw [hnil] at hover
      simp [CACHE_MAX] at hover
    obtain ⟨k, hk⟩ := oldestKey_some_of_ne _ hne
    refine ⟨k, hk, ?_⟩
    unfold cachePut
    rw [if_pos hover]
    simp only [hk]

/-- C10 witness: inserting into an empty cache keeps it within the
50-entry bound. -/
theorem cache_semantics_witness :
    ([] : Cache).length ≤ CACHE_MAX ∧
      (cachePut [] 0 "u" [1]).length ≤ CACHE_MAX :=
  ⟨by decide, (cache_semantics [] 0 "u" [1]).2.1 (by decide)⟩
